import Mathlib

/-!
Verification of the `networked` repository's frontend entry module
(`frontend/apps/prompted/src/main.tsx`), the sole executable source file.

The entry module brings in `createRoot` from `react-dom/client`, the
stylesheet `./assets/css/style.css` (a bare side-effect import), and the
`Header` and `Counter` components from the shared UI package `@repo/ui`;
defines `const App` as an arrow function returning the fixed JSX tree
`<div className="flex flex-col p-4"><Header title="Web" /><div
className="card"><Counter /></div></div>`; and finally executes
`createRoot(document.getElementById("app")!).render(<App />)`.

We embed the JSX element trees, a minimal host-document model, the
react-dom client contract (`createRoot` throws on a null container; a root's
`render` replaces the container's rendered content with the given tree), and
the entry module as a straight-line execution producing a final document,
an event trace and an optional thrown error.
-/

set_option autoImplicit false

namespace Networked

/-- A React element as produced by JSX: either an intrinsic host element
(a tag such as `div` with its props and children) or an externally supplied
component (here `Header` and `Counter` from the shared UI package
`@repo/ui`), referenced by name with the props and children it is given. -/
inductive ReactElement where
  | intrinsic (tag : String) (props : List (String × String)) (children : List ReactElement)
  | component (name : String) (props : List (String × String)) (children : List ReactElement)

/-- The `App` component from `main.tsx`: an arrow function taking no inputs
(its props are ignored) and returning the fixed JSX tree
`<div className="flex flex-col p-4"><Header title="Web" /><div className="card"><Counter /></div></div>`. -/
def App (_props : Unit) : ReactElement :=
  ReactElement.intrinsic "div" [("className", "flex flex-col p-4")]
    [ ReactElement.component "Header" [("title", "Web")] []
    , ReactElement.intrinsic "div" [("className", "card")]
        [ ReactElement.component "Counter" [] [] ] ]

mutual

/-- Whether the element tree contains, at any depth, a component with the
given name rendered with exactly the given props. -/
def containsComp (name : String) (props : List (String × String)) :
    ReactElement → Bool
  | ReactElement.intrinsic _ _ cs => containsCompList name props cs
  | ReactElement.component n p cs =>
      (n == name && p == props) || containsCompList name props cs

/-- `containsComp` over a list of children. -/
def containsCompList (name : String) (props : List (String × String)) :
    List ReactElement → Bool
  | [] => false
  | c :: cs => containsComp name props c || containsCompList name props cs

end

mutual

/-- All component occurrences in the tree, in document (pre-)order, each
with the props it is rendered with. -/
def collectComponents : ReactElement → List (String × List (String × String))
  | ReactElement.intrinsic _ _ cs => collectComponentsList cs
  | ReactElement.component n p cs => (n, p) :: collectComponentsList cs

/-- `collectComponents` over a list of children. -/
def collectComponentsList : List ReactElement → List (String × List (String × String))
  | [] => []
  | c :: cs => collectComponents c ++ collectComponentsList cs

end

/-- A DOM node of the host document, identified by its `id` attribute,
carrying the React tree currently rendered into it (empty before any mount). -/
structure DomNode where
  id : String
  rendered : List ReactElement

/-- A host document: its DOM nodes in document order. -/
structure HostDocument where
  nodes : List DomNode

/-- `document.getElementById`: the first node of the document whose `id`
attribute equals the given identifier, or null (`none`) when there is none. -/
def getElementById (doc : HostDocument) (elemId : String) : Option DomNode :=
  doc.nodes.find? (fun n => n.id == elemId)

/-- The TypeScript non-null assertion `!` applied to the element lookup.
It is a compile-time-only cast: TypeScript erases it during compilation, so
its runtime semantics is the identity, and a null value passes through it
untouched. -/
def nonNullAssertion (x : Option DomNode) : Option DomNode := x

/-- Where a thrown runtime error originates. -/
inductive ErrorSource where
  | nonNullAssertion
  | createRoot
deriving DecidableEq

/-- A thrown runtime error: its origin and its message. -/
structure RuntimeError where
  source : ErrorSource
  message : String
deriving DecidableEq

/-- The error react-dom's `createRoot` throws when its container argument is
not a DOM element (in particular when it is null). -/
def createRootNullError : RuntimeError :=
  { source := ErrorSource.createRoot
  , message := "createRoot(...): Target container is not a DOM element." }

/-- A React root, remembering the `id` of its container node. -/
structure Root where
  containerId : String

/-- react-dom/client `createRoot`: throws `createRootNullError` when the
container is null, otherwise returns a root for that container. -/
def createRoot : Option DomNode → Except RuntimeError Root
  | none => Except.error createRootNullError
  | some n => Except.ok { containerId := n.id }

/-- Rendering a tree into a node whose `id` matches the root's container id
makes the tree the node's sole rendered content, replacing whatever was
rendered there before (no appending); any other node is untouched. -/
def updateNode (cid : String) (tree : ReactElement) (n : DomNode) : DomNode :=
  if n.id == cid then { n with rendered := [tree] } else n

/-- Apply `updateNode` across the document's nodes. This is the react-dom
root `render` contract on the whole document. -/
def renderNodes (cid : String) (tree : ReactElement) : List DomNode → List DomNode
  | [] => []
  | n :: ns => updateNode cid tree n :: renderNodes cid tree ns

/-- Rendering a tree into a root updates the container node of the document. -/
def Root.render (root : Root) (doc : HostDocument) (tree : ReactElement) : HostDocument :=
  { nodes := renderNodes root.containerId tree doc.nodes }

/-- The observable operations the entry module can perform, in order. The
vocabulary also has an asynchronous-task event so that the absence of any
asynchronous work is expressible; the straight-line module never emits it. -/
inductive EntryEvent where
  | getElementByIdCall
  | createRootCall
  | renderCall
  | asyncTask
deriving DecidableEq

/-- The outcome of evaluating the entry module against a host document: the
document when execution stops, the trace of operations performed, and the
thrown error if evaluation failed. -/
structure EntryResult where
  finalDoc : HostDocument
  events : List EntryEvent
  thrown : Option RuntimeError

/-- Evaluation of the entry module `main.tsx` against a host document:
`createRoot(document.getElementById("app")!).render(<App />)`, executed
synchronously at module evaluation. The lookup result passes through the
erased non-null assertion to `createRoot`; if `createRoot` throws, execution
stops with the document unchanged and `render` never runs; otherwise the
`App` tree is rendered into the container. -/
def executeEntryModule (doc : HostDocument) : EntryResult :=
  let lookup := getElementById doc "app"
  let asserted := nonNullAssertion lookup
  match createRoot asserted with
  | Except.error e =>
      { finalDoc := doc
      , events := [EntryEvent.getElementByIdCall, EntryEvent.createRootCall]
      , thrown := some e }
  | Except.ok root =>
      { finalDoc := root.render doc (App ())
      , events := [EntryEvent.getElementByIdCall, EntryEvent.createRootCall,
                   EntryEvent.renderCall]
      , thrown := none }

/-- A static import declaration of the entry module: the imported names, the
module specifier, and whether it is a bare side-effect-only import. -/
structure ImportDecl where
  names : List String
  specifier : String
  sideEffectOnly : Bool
deriving DecidableEq

/-- The module specifier of the external shared UI package. -/
def sharedUiPackage : String := "@repo/ui"

/-- The import declarations of `main.tsx`, in source order (the first line of
the file is a commented-out React import, not an import declaration). -/
def entryModuleImports : List ImportDecl :=
  [ { names := ["createRoot"], specifier := "react-dom/client", sideEffectOnly := false }
  , { names := [], specifier := "./assets/css/style.css", sideEffectOnly := true }
  , { names := ["Header", "Counter"], specifier := sharedUiPackage, sideEffectOnly := false } ]

/-- The number of lines of `main.tsx`. -/
def entryModuleLineCount : Nat := 15

/-- A host document with a single, empty mount node with id `app`. -/
def docApp : HostDocument := { nodes := [{ id := "app", rendered := [] }] }

/-- A host document with no nodes at all (so no element with id `app`). -/
def docEmpty : HostDocument := { nodes := [] }

/-- The mount node of `docApp`. -/
def appNode : DomNode := { id := "app", rendered := [] }

/-! ## Helper lemmas about rendering -/

theorem updateNode_id (cid : String) (t : ReactElement) (n : DomNode) :
    (updateNode cid t n).id = n.id := by
  unfold updateNode
  split <;> rfl

theorem updateNode_idem (cid : String) (t : ReactElement) (n : DomNode) :
    updateNode cid t (updateNode cid t n) = updateNode cid t n := by
  unfold updateNode
  by_cases h : (n.id == cid) = true <;> simp [h]

theorem find?_renderNodes (i cid : String) (t : ReactElement) (ns : List DomNode) :
    (renderNodes cid t ns).find? (fun n => n.id == i) =
      (ns.find? (fun n => n.id == i)).map (updateNode cid t) := by
  induction ns with
  | nil => rfl
  | cons m ms ih =>
      by_cases h : (m.id == i) = true
      · simp [renderNodes, List.find?_cons, updateNode_id, h]
      · simp [renderNodes, List.find?_cons, updateNode_id, h, ih]

theorem renderNodes_idem (cid : String) (t : ReactElement) (ns : List DomNode) :
    renderNodes cid t (renderNodes cid t ns) = renderNodes cid t ns := by
  induction ns with
  | nil => rfl
  | cons m ms ih => simp [renderNodes, updateNode_idem, ih]

/-! ## Helper lemmas characterising the two execution paths of the entry
module -/

theorem executeEntryModule_of_found (doc : HostDocument) (n : DomNode)
    (h : getElementById doc "app" = some n) :
    executeEntryModule doc =
      { finalDoc := { nodes := renderNodes n.id (App ()) doc.nodes }
      , events := [EntryEvent.getElementByIdCall, EntryEvent.createRootCall,
                   EntryEvent.renderCall]
      , thrown := none } := by
  simp [executeEntryModule, nonNullAssertion, h, createRoot, Root.render]

theorem executeEntryModule_of_missing (doc : HostDocument)
    (h : getElementById doc "app" = none) :
    executeEntryModule doc =
      { finalDoc := doc
      , events := [EntryEvent.getElementByIdCall, EntryEvent.createRootCall]
      , thrown := some createRootNullError } := by
  simp [executeEntryModule, nonNullAssertion, h, createRoot]

theorem found_id (doc : HostDocument) (n : DomNode)
    (h : getElementById doc "app" = some n) : n.id = "app" := by
  have hp := List.find?_some h
  simpa using hp

theorem getElementById_after_mount (doc : HostDocument) (n : DomNode)
    (h : getElementById doc "app" = some n) :
    getElementById (executeEntryModule doc).finalDoc "app" =
      some { n with rendered := [App ()] } := by
  rw [executeEntryModule_of_found doc n h]
  unfold getElementById at h ⊢
  simp only [find?_renderNodes, h, Option.map_some]
  simp [updateNode]

/-! ## Claims -/

/-- Claim C1: for every host document containing an element with identifier
`app`, executing the entry module populates that element with the rendered
`App` tree, and that tree contains a `Header` component with title "Web" and
a `Counter` element. -/
theorem C1_mount_populates_app (doc : HostDocument) (n : DomNode)
    (h : getElementById doc "app" = some n) :
    getElementById (executeEntryModule doc).finalDoc "app" =
      some { n with rendered := [App ()] } ∧
    containsComp "Header" [("title", "Web")] (App ()) = true ∧
    containsComp "Counter" [] (App ()) = true :=
  ⟨getElementById_after_mount doc n h, rfl, rfl⟩

/-- Claim C1, witness: mounting into the concrete one-node document `docApp`
populates its `app` element with the `App` tree. -/
theorem C1_witness :
    getElementById (executeEntryModule docApp).finalDoc "app" =
      some { id := "app", rendered := [App ()] } ∧
    containsComp "Header" [("title", "Web")] (App ()) = true ∧
    containsComp "Counter" [] (App ()) = true :=
  C1_mount_populates_app docApp appNode rfl

/-- Claim C2, counterexample: on the empty host document the entry module
does throw, but the thrown error originates inside `createRoot`, not from
the non-null assertion (which is erased at runtime and never throws), so the
claimed origin of the error is false. -/
theorem C2_counterexample :
    (executeEntryModule docEmpty).thrown = some createRootNullError ∧
    createRootNullError.source = ErrorSource.createRoot ∧
    createRootNullError.source ≠ ErrorSource.nonNullAssertion :=
  ⟨rfl, rfl, by decide⟩

/-- Claim C2 (amended): for every host document with no element of
identifier `app`, the mount fails fatally at startup with a thrown error
originating inside `createRoot`, which receives the null lookup result (the
non-null assertion is erased at runtime); the failure is surfaced
immediately and not retried: execution stops after a single `createRoot`
call with no render. -/
theorem C2_mount_fails_fatally (doc : HostDocument)
    (h : getElementById doc "app" = none) :
    (executeEntryModule doc).thrown = some createRootNullError ∧
    createRootNullError.source = ErrorSource.createRoot ∧
    (executeEntryModule doc).events =
      [EntryEvent.getElementByIdCall, EntryEvent.createRootCall] ∧
    (executeEntryModule doc).events.count EntryEvent.createRootCall = 1 := by
  rw [executeEntryModule_of_missing doc h]
  exact ⟨rfl, rfl, rfl, rfl⟩

/-- Claim C2, witness: the amended failure behaviour at the concrete empty
document. -/
theorem C2_witness :
    (executeEntryModule docEmpty).thrown = some createRootNullError ∧
    createRootNullError.source = ErrorSource.createRoot ∧
    (executeEntryModule docEmpty).events =
      [EntryEvent.getElementByIdCall, EntryEvent.createRootCall] ∧
    (executeEntryModule docEmpty).events.count EntryEvent.createRootCall = 1 :=
  C2_mount_fails_fatally docEmpty rfl

/-- Claim C3: for every host document lacking an element with identifier
`app`, the mount fails before any rendering occurs: the document is
unchanged, the event trace stops at the `createRoot` call with no render
event, and the null-container error is thrown. -/
theorem C3_fails_before_rendering (doc : HostDocument)
    (h : getElementById doc "app" = none) :
    (executeEntryModule doc).finalDoc = doc ∧
    (executeEntryModule doc).events =
      [EntryEvent.getElementByIdCall, EntryEvent.createRootCall] ∧
    (executeEntryModule doc).events.count EntryEvent.renderCall = 0 ∧
    (executeEntryModule doc).thrown = some createRootNullError := by
  rw [executeEntryModule_of_missing doc h]
  exact ⟨rfl, rfl, rfl, rfl⟩

/-- Claim C3, witness: the failure leaves the concrete empty document
unchanged with no render event. -/
theorem C3_witness :
    (executeEntryModule docEmpty).finalDoc = docEmpty ∧
    (executeEntryModule docEmpty).events =
      [EntryEvent.getElementByIdCall, EntryEvent.createRootCall] ∧
    (executeEntryModule docEmpty).events.count EntryEvent.renderCall = 0 ∧
    (executeEntryModule docEmpty).thrown = some createRootNullError :=
  C3_fails_before_rendering docEmpty rfl

/-- Claim C4: re-mounting is idempotent with respect to the final rendered
structure: for every host document with an `app` element, executing the
entry module twice yields the same document as executing it once (no
accumulation of duplicate trees). -/
theorem C4_remount_idempotent (doc : HostDocument) (n : DomNode)
    (h : getElementById doc "app" = some n) :
    (executeEntryModule (executeEntryModule doc).finalDoc).finalDoc =
      (executeEntryModule doc).finalDoc := by
  have h2 : getElementById (executeEntryModule doc).finalDoc "app" =
      some { n with rendered := [App ()] } :=
    getElementById_after_mount doc n h
  rw [executeEntryModule_of_found _ _ h2]
  rw [executeEntryModule_of_found doc n h]
  simp [renderNodes_idem]

/-- Claim C4, witness: re-mounting into the concrete one-node document
`docApp` changes nothing after the first mount. -/
theorem C4_witness :
    (executeEntryModule (executeEntryModule docApp).finalDoc).finalDoc =
      (executeEntryModule docApp).finalDoc :=
  C4_remount_idempotent docApp appNode rfl

/-- Claim C5: on every host document the entry module performs exactly one
`createRoot` call, at most one render, and no asynchronous work; its event
trace is one of the two straight-line sequences (failure before render, or
lookup-createRoot-render), so a second mount never occurs during module
evaluation. -/
theorem C5_single_synchronous_mount (doc : HostDocument) :
    (executeEntryModule doc).events.count EntryEvent.createRootCall = 1 ∧
    (executeEntryModule doc).events.count EntryEvent.renderCall ≤ 1 ∧
    (executeEntryModule doc).events.count EntryEvent.asyncTask = 0 ∧
    ((executeEntryModule doc).events =
        [EntryEvent.getElementByIdCall, EntryEvent.createRootCall] ∨
     (executeEntryModule doc).events =
        [EntryEvent.getElementByIdCall, EntryEvent.createRootCall,
         EntryEvent.renderCall]) := by
  cases hl : getElementById doc "app" with
  | none =>
      rw [executeEntryModule_of_missing doc hl]
      exact ⟨rfl, Nat.zero_le 1, rfl, Or.inl rfl⟩
  | some n =>
      rw [executeEntryModule_of_found doc n hl]
      exact ⟨rfl, Nat.le_refl 1, rfl, Or.inr rfl⟩

/-- Claim C6: the entry point imports a stylesheet (its only
side-effect-only import is the `.css` stylesheet), imports exactly the two
components `Header` and `Counter` from the external shared package,
composes them into the static div tree of `App`, mounts that tree into a
DOM node, and is a 15-line file. -/
theorem C6_entry_point_structure (doc : HostDocument) (n : DomNode)
    (h : getElementById doc "app" = some n) :
    (entryModuleImports.filter fun d => d.sideEffectOnly).map
      (fun d => d.specifier) = ["./assets/css/style.css"] ∧
    (entryModuleImports.filter fun d => d.specifier == sharedUiPackage).map
      (fun d => d.names) = [["Header", "Counter"]] ∧
    App () = ReactElement.intrinsic "div" [("className", "flex flex-col p-4")]
      [ ReactElement.component "Header" [("title", "Web")] []
      , ReactElement.intrinsic "div" [("className", "card")]
          [ ReactElement.component "Counter" [] [] ] ] ∧
    entryModuleLineCount = 15 ∧
    getElementById (executeEntryModule doc).finalDoc "app" =
      some { n with rendered := [App ()] } :=
  ⟨rfl, rfl, rfl, rfl, getElementById_after_mount doc n h⟩

/-- Claim C6, witness: the entry-point structure facts, with the mount
instantiated at the concrete one-node document `docApp`. -/
theorem C6_witness :
    (entryModuleImports.filter fun d => d.sideEffectOnly).map
      (fun d => d.specifier) = ["./assets/css/style.css"] ∧
    (entryModuleImports.filter fun d => d.specifier == sharedUiPackage).map
      (fun d => d.names) = [["Header", "Counter"]] ∧
    App () = ReactElement.intrinsic "div" [("className", "flex flex-col p-4")]
      [ ReactElement.component "Header" [("title", "Web")] []
      , ReactElement.intrinsic "div" [("className", "card")]
          [ ReactElement.component "Counter" [] [] ] ] ∧
    entryModuleLineCount = 15 ∧
    getElementById (executeEntryModule docApp).finalDoc "app" =
      some { id := "app", rendered := [App ()] } :=
  C6_entry_point_structure docApp appNode rfl

/-- Claim C7: the entry file's contract with the external components is
exactly: `Header` is rendered with the single property `title` set to
"Web", and `Counter` is rendered with no inputs at all (these are the only
component occurrences in the `App` tree). -/
theorem C7_component_contract :
    collectComponents (App ()) =
      [("Header", [("title", "Web")]), ("Counter", [])] := rfl

/-- Claim C8: `App` is a deterministic constant function: any two
evaluations produce structurally identical element trees. -/
theorem C8_app_deterministic : ∀ p q : Unit, App p = App q :=
  fun _ _ => rfl

/-- Claim C9: the rendered tree has the fixed shape: a root div with
className "flex flex-col p-4" whose first child is the Header with title
"Web" and whose second child is a div with className "card" containing the
Counter; in document order the Header precedes the Counter. -/
theorem C9_app_tree_shape :
    App () = ReactElement.intrinsic "div" [("className", "flex flex-col p-4")]
      [ ReactElement.component "Header" [("title", "Web")] []
      , ReactElement.intrinsic "div" [("className", "card")]
          [ ReactElement.component "Counter" [] [] ] ] ∧
    collectComponents (App ()) =
      [("Header", [("title", "Web")]), ("Counter", [])] :=
  ⟨rfl, rfl⟩

/-- Claim C10: the non-null assertion has no runtime effect: it is the
identity on every value, so when no `app` element exists the null lookup
result itself reaches `createRoot`, and the thrown error originates inside
`createRoot`, not from the lookup or the assertion. -/
theorem C10_assertion_erased (doc : HostDocument)
    (h : getElementById doc "app" = none) :
    (∀ x : Option DomNode, nonNullAssertion x = x) ∧
    nonNullAssertion (getElementById doc "app") = none ∧
    createRoot (nonNullAssertion (getElementById doc "app")) =
      Except.error createRootNullError ∧
    (executeEntryModule doc).thrown = some createRootNullError ∧
    createRootNullError.source = ErrorSource.createRoot := by
  refine ⟨fun _ => rfl, ?_, ?_, ?_, rfl⟩
  · rw [nonNullAssertion, h]
  · simp [nonNullAssertion, h, createRoot]
  · rw [executeEntryModule_of_missing doc h]

/-- Claim C10, witness: on the concrete empty document the assertion passes
null through and `createRoot` is what throws. -/
theorem C10_witness :
    (∀ x : Option DomNode, nonNullAssertion x = x) ∧
    nonNullAssertion (getElementById docEmpty "app") = none ∧
    createRoot (nonNullAssertion (getElementById docEmpty "app")) =
      Except.error createRootNullError ∧
    (executeEntryModule docEmpty).thrown = some createRootNullError ∧
    createRootNullError.source = ErrorSource.createRoot :=
  C10_assertion_erased docEmpty rfl

end Networked
